import Mathlib

/-!
# Verification of the zqlite-rs pooled resource manager

Shallow embedding of `src/ghostwire/zqlite-rs/src/{error,row,pool,lib,async_connection}.rs`.

Conventions of the embedding:
* `Instant` and `Duration` are modelled as `Nat` ticks.  Rust's
  `Duration::saturating_sub`-like behaviour of `Nat` subtraction matches the
  `saturating_sub` calls in the source; where the source uses plain
  `Duration - Duration` (which panics on underflow) the model is explicit.
* Foreign (FFI) behaviour is an oracle: connection ids are `Nat`, the outcome of
  running the validation query is a function `Nat → Bool`, the outcome of
  creating a connection is an `Option Nat`, stored column values are a function
  `Nat → Nat → Int`.
* All `u32`/`u64` counters are modelled as `Nat`; every counter the claims are
  about stays far below `2^32` (bounded by `max_connections`), and the source's
  `saturating_sub` is exactly `Nat` subtraction.
-/

/-- The error taxonomy of `error.rs` (`enum Error`).  String payloads carry the
same data as in the source; `IoErr` stands for the `Io(std::io::Error)` variant
with the error rendered as a message. -/
inductive Error where
  | Database (msg : String)
  | ConnectionFailed
  | InvalidPath
  | InvalidSql
  | BindError
  | ExecutionError
  | ResetError
  | TransactionError
  | RowError (msg : String)
  | TypeMismatch (expected actual : String)
  | PoolError (msg : String)
  | Unknown
  | IoErr (msg : String)
  | NullPointer
  | IndexOutOfBounds (index : Nat)
  deriving Repr, DecidableEq

namespace Error

/-- `Error::is_recoverable` from `error.rs`, clause for clause. -/
def is_recoverable : Error → Bool
  | .Database _ => false
  | .ConnectionFailed => false
  | .InvalidPath => false
  | .InvalidSql => true
  | .BindError => true
  | .ExecutionError => true
  | .ResetError => true
  | .TransactionError => false
  | .RowError _ => true
  | .TypeMismatch _ _ => true
  | .PoolError _ => true
  | .Unknown => false
  | .IoErr _ => false
  | .NullPointer => false
  | .IndexOutOfBounds _ => true

/-- `Error::pool_error` from `error.rs`. -/
def pool_error (msg : String) : Error := .PoolError msg

/-- `Error::index_out_of_bounds` from `error.rs`. -/
def index_out_of_bounds (index : Nat) : Error := .IndexOutOfBounds index

end Error

/-! ## Result marshaling layer (`row.rs`) -/

/-- `Row` from `row.rs`: a view into one row of a materialized foreign result.
The raw result pointer is modelled as an opaque `Nat` token. -/
structure Row where
  result : Nat
  row_index : Nat
  column_count : Nat
  deriving Repr, DecidableEq

/-- `Rows` from `row.rs`: the materialized foreign result pointer (opaque
token), the row/column counts read once at construction, and the iteration
cursor. -/
structure Rows where
  inner : Nat
  row_count : Nat
  column_count : Nat
  current_row : Nat
  deriving Repr, DecidableEq

namespace Rows

/-- `Rows::new` from `row.rs`: the row and column counts are read from the
foreign result exactly once, here passed in as the values those two FFI reads
produced; the cursor starts at 0. -/
def new (ptr rowCount colCount : Nat) : Rows :=
  { inner := ptr, row_count := rowCount, column_count := colCount, current_row := 0 }

/-- `<Rows as Iterator>::next` from `row.rs`.  Note that it reads nothing but
the three stored counters: the foreign result is not consulted (the `Row`
handed out merely copies the stored pointer token). -/
def next (r : Rows) : Option Row × Rows :=
  if r.current_row ≥ r.row_count then
    (none, r)
  else
    ({ result := r.inner, row_index := r.current_row, column_count := r.column_count : Row},
     { r with current_row := r.current_row + 1 })

/-- Driving the iterator: `iterate n r` performs `n` successive `next` calls
and collects the yielded items. -/
def iterate : Nat → Rows → List Row × Rows
  | 0, r => ([], r)
  | n + 1, r =>
      let s := r.next
      let t := iterate n s.2
      (s.1.toList ++ t.1, t.2)

end Rows

/-! ## Typed column extraction (`row.rs`, `FromSql`) -/

/-- Rust's wrapping conversion `value as i32` applied to an `i64` value
(`impl FromSql for i32` in `row.rs` does `Ok(value as i32)`). -/
def asI32 (v : Int) : Int := (v + 2 ^ 31) % 2 ^ 32 - 2 ^ 31

/-- From the spec's words: "reduced modulo 2^32 and reinterpreted as signed". -/
def specTruncI32 (v : Int) : Int :=
  let u := v % 2 ^ 32
  if u < 2 ^ 31 then u else u - 2 ^ 32

/-- `<i64 as FromSql>::from_sql`: reads the stored 64-bit value via
`zqlite_result_get_int` (the oracle `getInt`) and always succeeds. -/
def i64_from_sql (getInt : Nat → Nat → Int) (row column : Nat) : Except Error Int :=
  .ok (getInt row column)

/-- `<i32 as FromSql>::from_sql`: delegates to the `i64` extraction and
truncates with `as i32`. -/
def i32_from_sql (getInt : Nat → Nat → Int) (row column : Nat) : Except Error Int := do
  let value ← i64_from_sql getInt row column
  return asI32 value

/-- `<Option<i64> as FromSql>::from_sql`: the oracle `isNull` is the outcome of
the `column_type == ZQLITE_NULL` test on the foreign result. -/
def optI64_from_sql (isNull : Nat → Nat → Bool) (getInt : Nat → Nat → Int)
    (row column : Nat) : Except Error (Option Int) := do
  if isNull row column then
    return none
  let value ← i64_from_sql getInt row column
  return some value

/-- `<Option<i32> as FromSql>::from_sql`: delegates to the `Option<i64>`
extraction and maps `as i32` over the non-null value. -/
def optI32_from_sql (isNull : Nat → Nat → Bool) (getInt : Nat → Nat → Int)
    (row column : Nat) : Except Error (Option Int) := do
  let value ← optI64_from_sql isNull getInt row column
  return value.map asI32

/-- `Row::get::<i32>` from `row.rs`: bounds check, then `FromSql` extraction. -/
def Row.get_i32 (r : Row) (getInt : Nat → Nat → Int) (column : Nat) :
    Except Error Int :=
  if column ≥ r.column_count then
    .error (Error.index_out_of_bounds column)
  else
    i32_from_sql getInt r.row_index column

/-- `Row::get::<Option<i32>>` from `row.rs`. -/
def Row.get_optI32 (r : Row) (isNull : Nat → Nat → Bool) (getInt : Nat → Nat → Int)
    (column : Nat) : Except Error (Option Int) :=
  if column ≥ r.column_count then
    .error (Error.index_out_of_bounds column)
  else
    optI32_from_sql isNull getInt r.row_index column

/-! ## Connection pool (`pool.rs`)

`Instant::now()` readings are supplied to each locked section as a `Nat`
clock value; validation-probe outcomes (`is_valid` runs `test_query` through
the FFI) come from an oracle `Nat → Bool` indexed by connection id; connection
creation (`Connection::open`) outcomes come from an `Except Error Nat` oracle.
-/

/-- `PoolConfig` from `pool.rs`; durations in abstract ticks. -/
structure PoolConfig where
  min_connections : Nat
  max_connections : Nat
  connection_timeout : Nat
  max_connection_lifetime : Nat
  max_idle_time : Nat
  test_query : Option String
  deriving Repr, DecidableEq

/-- `PooledConnection` from `pool.rs`: a connection id with its timestamps. -/
structure PooledConnection where
  connection : Nat
  created_at : Nat
  last_used : Nat
  deriving Repr, DecidableEq

namespace PooledConnection

/-- `PooledConnection::new`: both timestamps are set to the current instant. -/
def new (conn now : Nat) : PooledConnection :=
  { connection := conn, created_at := now, last_used := now }

/-- `PooledConnection::is_expired`.  (`Instant` is monotone, so the `Nat`
truncated subtraction agrees with `duration_since`.) -/
def is_expired (c : PooledConnection) (config : PoolConfig) (now : Nat) : Bool :=
  now - c.created_at > config.max_connection_lifetime
    || now - c.last_used > config.max_idle_time

/-- `PooledConnection::is_valid`: runs `test_query` when configured (outcome
from the probe oracle), vacuously true otherwise. -/
def is_valid (c : PooledConnection) (config : PoolConfig) (probeOk : Nat → Bool) : Bool :=
  match config.test_query with
  | some _ => probeOk c.connection
  | none => true

/-- `PooledConnection::touch`. -/
def touch (c : PooledConnection) (now : Nat) : PooledConnection :=
  { c with last_used := now }

end PooledConnection

/-- `PoolStats` from `pool.rs`. -/
structure PoolStats where
  connections_created : Nat
  connections_destroyed : Nat
  active_connections : Nat
  idle_connections : Nat
  waiting_requests : Nat
  deriving Repr, DecidableEq

/-- `PoolInner` from `pool.rs`: the mutex-guarded shared state. -/
structure PoolInner where
  config : PoolConfig
  database_path : Option String
  available : List PooledConnection
  active_count : Nat
  stats : PoolStats
  waiting : Nat
  deriving Repr, DecidableEq

/-- Outcome of one locked section of `ConnectionPool::get_connection`. -/
inductive GetOutcome where
  /-- A connection was handed out (popped from the queue or freshly created). -/
  | acquired (conn : Nat)
  /-- `create_connection` failed; its error is returned to the caller. -/
  | failed (e : Error)
  /-- Queue drained and the pool is at capacity: fall through to the wait path. -/
  | exhausted
  deriving Repr, DecidableEq

namespace ConnectionPool

/-- The `while let Some(mut pooled_conn) = inner.available.pop_front()` loop of
`get_connection`: pop idle connections, decrementing the idle gauge
(`saturating_sub`, i.e. `Nat` subtraction) each pop; discard expired or invalid
ones (incrementing `connections_destroyed`) and keep looping; stop at the first
healthy connection. -/
def drainIdle (config : PoolConfig) (now : Nat) (probeOk : Nat → Bool) :
    List PooledConnection → PoolStats →
    Option PooledConnection × List PooledConnection × PoolStats
  | [], stats => (none, [], stats)
  | c :: rest, stats =>
      let stats1 := { stats with idle_connections := stats.idle_connections - 1 }
      if c.is_expired config now || !(c.is_valid config probeOk) then
        drainIdle config now probeOk rest
          { stats1 with connections_destroyed := stats1.connections_destroyed + 1 }
      else
        (some c, rest, stats1)

/-- One locked section of `ConnectionPool::get_connection` (`pool.rs`
lines 182-228): drain the idle queue; if a healthy connection surfaced, touch
it and hand it out (the guard receives the bare `Connection`, so both
timestamps of the `PooledConnection` wrapper are discarded here); otherwise, if
there is capacity, create a new connection; otherwise report exhaustion (the
caller proceeds to the timeout check and condition-variable wait). -/
def getConnectionBody (now : Nat) (probeOk : Nat → Bool) (createConn : Except Error Nat)
    (s : PoolInner) : GetOutcome × PoolInner :=
  match drainIdle s.config now probeOk s.available s.stats with
  | (some c, rest, stats) =>
      (.acquired (c.touch now).connection,
       { s with available := rest,
                active_count := s.active_count + 1,
                stats := { stats with active_connections := stats.active_connections + 1 } })
  | (none, rest, stats) =>
      if s.active_count + rest.length < s.config.max_connections then
        match createConn with
        | .ok conn =>
            (.acquired conn,
             { s with available := rest,
                      active_count := s.active_count + 1,
                      stats := { stats with
                        connections_created := stats.connections_created + 1,
                        active_connections := stats.active_connections + 1 } })
        | .error e =>
            (.failed e, { s with available := rest, stats := stats })
      else
        (.exhausted, { s with available := rest, stats := stats })

/-- `Drop for PooledConnectionGuard` (`pool.rs` lines 323-351): decide
`should_keep`; if kept, the connection is rewrapped by `PooledConnection::new`
(note: with *fresh* timestamps) and pushed to the back of the queue; otherwise
it is destroyed.  `active_count` and the active gauge are then decremented with
`saturating_sub`. -/
def guardDrop (now conn : Nat) (s : PoolInner) : PoolInner :=
  let should_keep :=
    s.available.length < s.config.max_connections
      && s.active_count + s.available.length ≥ s.config.min_connections
  let s1 :=
    if should_keep then
      { s with available := s.available ++ [PooledConnection.new conn now],
               stats := { s.stats with
                 idle_connections := s.stats.idle_connections + 1 } }
    else
      { s with stats := { s.stats with
          connections_destroyed := s.stats.connections_destroyed + 1 } }
  { s1 with active_count := s1.active_count - 1,
            stats := { s1.stats with
              active_connections := s1.stats.active_connections - 1 } }

/-- The top-up loop at the end of `ConnectionPool::maintain`: `toCreate`
creation attempts, each consuming one oracle entry; successes are pushed to the
back of the queue (`if let Ok(conn) = ...`), failures are skipped. -/
def topUp (now : Nat) : Nat → List (Except Error Nat) → PoolInner → PoolInner
  | 0, _, s => s
  | _ + 1, [], s => s
  | n + 1, .error _ :: rest, s => topUp now n rest s
  | n + 1, .ok conn :: rest, s =>
      topUp now n rest
        { s with available := s.available ++ [PooledConnection.new conn now],
                 stats := { s.stats with
                   connections_created := s.stats.connections_created + 1,
                   idle_connections := s.stats.idle_connections + 1 } }

/-- `ConnectionPool::maintain` (`pool.rs` lines 262-296): remove the expired
entries from the idle queue (destroyed counter up, idle gauge `saturating_sub`
per removal; removing by reverse indices is order-preserving filtering), then,
if `active + idle` fell below `min_connections`, create that many new
connections best-effort. -/
def maintain (now : Nat) (creations : List (Except Error Nat)) (s : PoolInner) : PoolInner :=
  let kept := s.available.filter (fun c => !(c.is_expired s.config now))
  let removed := s.available.length - kept.length
  let s1 := { s with
    available := kept,
    stats := { s.stats with
      connections_destroyed := s.stats.connections_destroyed + removed,
      idle_connections := s.stats.idle_connections - removed } }
  let currentTotal := s1.active_count + kept.length
  if currentTotal < s.config.min_connections then
    topUp now (s.config.min_connections - currentTotal) creations s1
  else
    s1

/-- `ConnectionPool::close` (`pool.rs` lines 299-306): clear the idle queue,
add the idle gauge to the destroyed counter, zero the idle gauge.  Nothing else
is touched and no closed flag exists. -/
def close (s : PoolInner) : PoolInner :=
  { s with available := [],
           stats := { s.stats with
             connections_destroyed := s.stats.connections_destroyed + s.stats.idle_connections,
             idle_connections := 0 } }

/-- The creation loop of `initialize_connections`: `min_connections` creation
attempts, all of which must succeed (`?` propagates the first failure, and the
partially constructed pool is then discarded, so a failed construction yields
no pool state at all). -/
def createMany (now : Nat) : Nat → List (Except Error Nat) → Option (List PooledConnection)
  | 0, _ => some []
  | _ + 1, [] => none
  | _ + 1, .error _ :: _ => none
  | n + 1, .ok conn :: rest =>
      (createMany now n rest).map (fun l => PooledConnection.new conn now :: l)

/-- `ConnectionPool::new` followed by `initialize_connections` (`pool.rs`
lines 112-164): empty state, then `min_connections` eagerly created
connections pushed to the queue, `connections_created` counted per creation and
the idle gauge set to `min_connections`. -/
def initPool (config : PoolConfig) (path : Option String)
    (creations : List (Except Error Nat)) (now : Nat) : Option PoolInner :=
  (createMany now config.min_connections creations).map fun conns =>
    { config := config
      database_path := path
      available := conns
      active_count := 0
      stats := { connections_created := config.min_connections
                 connections_destroyed := 0
                 active_connections := 0
                 idle_connections := config.min_connections
                 waiting_requests := 0 }
      waiting := 0 }

end ConnectionPool

/-- One atomic (lock-held) mutation of the shared pool state, by any thread:
a `get_connection` locked section, the bookkeeping around a condition-variable
wait (`waiting += 1` with its gauge, `waiting -= 1` on wake), a guard drop,
`maintain`, or `close`. -/
inductive PoolStep : PoolInner → PoolInner → Prop where
  | get (now : Nat) (probeOk : Nat → Bool) (createConn : Except Error Nat) (s : PoolInner) :
      PoolStep s (ConnectionPool.getConnectionBody now probeOk createConn s).2
  | waitEnter (s : PoolInner) :
      PoolStep s { s with waiting := s.waiting + 1,
                          stats := { s.stats with
                            waiting_requests := s.stats.waiting_requests + 1 } }
  | waitExit (s : PoolInner) :
      PoolStep s { s with waiting := s.waiting - 1 }
  | drop (now conn : Nat) (s : PoolInner) :
      PoolStep s (ConnectionPool.guardDrop now conn s)
  | maint (now : Nat) (creations : List (Except Error Nat)) (s : PoolInner) :
      PoolStep s (ConnectionPool.maintain now creations s)
  | close (s : PoolInner) :
      PoolStep s (ConnectionPool.close s)

/-- Pool states reachable from a successful `ConnectionPool::new`. -/
inductive PoolReach : PoolInner → Prop where
  | init (config : PoolConfig) (path : Option String)
      (creations : List (Except Error Nat)) (now : Nat) (s : PoolInner) :
      ConnectionPool.initPool config path creations now = some s → PoolReach s
  | step (s t : PoolInner) : PoolReach s → PoolStep s t → PoolReach t

/-! ## The full `get_connection` loop (`pool.rs` lines 175-247)

Between a condition-variable wait and the next locked section other threads may
mutate the shared state; the schedule supplies the state observed at wake-up.
Each loop iteration's external inputs are collected in one record. -/

/-- External inputs of one iteration of the `get_connection` retry loop:
the clock value used inside the locked section, the probe / creation oracles,
the two separate `start.elapsed()` readings (one at the timeout check of line
231, one inside `timeout - start.elapsed()` of line 239 — time may advance
between them), the shared state observed when the wait wakes up, and whether
`wait_timeout` reported a timeout. -/
structure WaitIter where
  now : Nat
  probeOk : Nat → Bool
  createConn : Except Error Nat
  elapsedAtCheck : Nat
  elapsedAtWait : Nat
  wakeState : PoolInner
  timedOut : Bool

/-- Result of a `get_connection` call (or of a finite prefix of it). -/
inductive RunResult where
  /-- Returned `Ok(PooledConnectionGuard)` holding connection `conn`. -/
  | ok (conn : Nat) (s : PoolInner)
  /-- Returned `Err(e)`. -/
  | err (e : Error) (s : PoolInner)
  /-- The thread panicked: `timeout - start.elapsed()` underflowed
  (`Duration` subtraction panics on overflow). -/
  | panicked
  /-- The supplied schedule ended while the call was still waiting. -/
  | pending (s : PoolInner)
  deriving DecidableEq

/-- `ConnectionPool::get_connection`: the retry loop, one `WaitIter` per
iteration.  The locked section is `getConnectionBody`; on exhaustion the code
checks `start.elapsed() >= timeout`, increments the waiting bookkeeping, then
computes `timeout - start.elapsed()` with a *fresh* elapsed reading — a plain
`Duration` subtraction that panics if that reading exceeds `timeout` — and
waits; on wake it decrements `waiting` and retries unless `wait_timeout`
timed out. -/
def get_connection_run (timeout : Nat) : List WaitIter → PoolInner → RunResult
  | [], s => .pending s
  | it :: rest, s =>
      match ConnectionPool.getConnectionBody it.now it.probeOk it.createConn s with
      | (.acquired conn, s1) => .ok conn s1
      | (.failed e, s1) => .err e s1
      | (.exhausted, s1) =>
          if it.elapsedAtCheck ≥ timeout then
            .err (Error.pool_error "Connection timeout") s1
          else if timeout < it.elapsedAtWait then
            .panicked
          else
            let sWake := { it.wakeState with waiting := it.wakeState.waiting - 1 }
            if it.timedOut then
              .err (Error.pool_error "Connection timeout") sWake
            else
              get_connection_run timeout rest sWake

/-- A pool state with no idle connections and no capacity to create more:
`get_connection`'s locked section can only fall through to the wait path. -/
def Exhausted (s : PoolInner) : Prop :=
  s.available = [] ∧ s.config.max_connections ≤ s.active_count

/-! ## Native handle wrapper: transactions (`lib.rs` lines 332-387)

The observable contract of `Transaction` is which foreign primitives
(`zqlite_commit_transaction` / `zqlite_rollback_transaction`) it invokes, in
which order, over its whole lifetime.  Each modelled operation returns the
sequence of primitives it invoked. -/

/-- A foreign transaction primitive invocation. -/
inductive TxPrim where
  | commitPrim
  | rollbackPrim
  deriving Repr, DecidableEq

/-- `Transaction` from `lib.rs`: the `committed` flag (the borrowed connection
is left implicit). -/
structure Transaction where
  committed : Bool
  deriving Repr, DecidableEq

namespace Transaction

/-- `Transaction::new` (called by `Connection::begin_transaction`). -/
def new : Transaction := { committed := false }

/-- The body of `Transaction::commit(mut self)`: invokes the commit primitive;
on success sets `committed = true`, on failure returns the error with
`committed` untouched.  Either way `self` is consumed and dropped when the call
returns.  `primOk` is the foreign outcome. -/
def commitBody (tx : Transaction) (primOk : Bool) :
    List TxPrim × Transaction × Except Error Unit :=
  if primOk then
    ([.commitPrim], { committed := true }, .ok ())
  else
    ([.commitPrim], tx, .error .TransactionError)

/-- The body of `Transaction::rollback(self)`: invokes the rollback primitive
and returns; `committed` is never written. -/
def rollbackBody (tx : Transaction) (primOk : Bool) :
    List TxPrim × Transaction × Except Error Unit :=
  if primOk then
    ([.rollbackPrim], tx, .ok ())
  else
    ([.rollbackPrim], tx, .error .TransactionError)

/-- `Drop for Transaction`: invokes the rollback primitive iff `committed` is
still false (its result is discarded). -/
def dropBody (tx : Transaction) : List TxPrim :=
  if tx.committed then [] else [.rollbackPrim]

end Transaction

/-- Whole-lifetime primitive trace of `begin_transaction(); tx.commit()`:
the `commit` call followed by the drop of the consumed `self`. -/
def txLifetimeCommit (primOk : Bool) : List TxPrim :=
  let r := Transaction.new.commitBody primOk
  r.1 ++ r.2.1.dropBody

/-- Whole-lifetime primitive trace of `begin_transaction(); tx.rollback()`. -/
def txLifetimeRollback (primOk : Bool) : List TxPrim :=
  let r := Transaction.new.rollbackBody primOk
  r.1 ++ r.2.1.dropBody

/-- Whole-lifetime primitive trace of a transaction dropped with neither
`commit` nor `rollback` called. -/
def txLifetimeAbandoned : List TxPrim :=
  Transaction.new.dropBody

/-! ## Async bridge transactions (`async_connection.rs` lines 206-268) -/

/-- `AsyncTransaction` from `async_connection.rs`: holds no connection
(`connection_pool` is set to `None` at construction — the source marks storing
a reference as unimplemented) and a `committed` flag. -/
structure AsyncTransaction where
  connection_pool : Option Unit
  committed : Bool
  deriving Repr, DecidableEq

namespace AsyncTransaction

/-- `AsyncTransaction::new(tx)`: drops the real `Transaction` it is handed
(which fires that transaction's `Drop`, i.e. the auto-rollback, since it was
never committed) and stores no connection.  Returns the primitive trace of that
drop together with the constructed value. -/
def new (tx : Transaction) : List TxPrim × AsyncTransaction :=
  (tx.dropBody, { connection_pool := none, committed := false })

/-- `AsyncTransaction::execute`: rejects a committed transaction, otherwise
returns `Ok(())` without running any SQL (the source's body is a stub). -/
def execute (tx : AsyncTransaction) (_sql : String) : Except Error Unit :=
  if tx.committed then .error .TransactionError else .ok ()

/-- `AsyncTransaction::query`: rejects a committed transaction, otherwise
returns `Err(TransactionError)` (the source's body is a stub). -/
def query (tx : AsyncTransaction) (_sql : String) : Except Error Rows :=
  if tx.committed then .error .TransactionError else .error .TransactionError

/-- `AsyncTransaction::commit(mut self)`: sets the flag; invokes no foreign
primitive (the returned trace is the list of primitives invoked). -/
def commit (tx : AsyncTransaction) :
    List TxPrim × AsyncTransaction × Except Error Unit :=
  if tx.committed then
    ([], tx, .error .TransactionError)
  else
    ([], { tx with committed := true }, .ok ())

end AsyncTransaction

/-! ## Theorems -/

/-- C7: `Error::is_recoverable` classifies exactly as the spec's taxonomy:
true for bind, execution, row, index, type and pool errors; false for
connection-establishment, transaction-state and unknown errors. -/
theorem C7_is_recoverable_taxonomy (s e a : String) (i : Nat) :
    Error.is_recoverable .BindError = true ∧
    Error.is_recoverable .ExecutionError = true ∧
    Error.is_recoverable (.RowError s) = true ∧
    Error.is_recoverable (.IndexOutOfBounds i) = true ∧
    Error.is_recoverable (.TypeMismatch e a) = true ∧
    Error.is_recoverable (.PoolError s) = true ∧
    Error.is_recoverable .ConnectionFailed = false ∧
    Error.is_recoverable .TransactionError = false ∧
    Error.is_recoverable .Unknown = false :=
  ⟨rfl, rfl, rfl, rfl, rfl, rfl, rfl, rfl, rfl⟩

/-- `next` on a cursor that has reached the count yields `none` and leaves the
state untouched. -/
lemma Rows.next_exhausted {r : Rows} (h : r.row_count ≤ r.current_row) :
    r.next = (none, r) := by
  unfold Rows.next
  rw [if_pos h]

/-- Iterating an exhausted `Rows` any number of times yields nothing and does
not change the state. -/
lemma Rows.iterate_exhausted (k : Nat) (r : Rows) (h : r.row_count ≤ r.current_row) :
    Rows.iterate k r = ([], r) := by
  induction k with
  | zero => rfl
  | succ n ih =>
      unfold Rows.iterate
      rw [Rows.next_exhausted h]
      simp [ih]

/-- Iterating `n` steps with `n` rows remaining yields exactly `n` items and
advances only the cursor, to `current_row + n`. -/
lemma Rows.iterate_length_state (n : Nat) :
    ∀ r : Rows, r.current_row + n ≤ r.row_count →
      (Rows.iterate n r).1.length = n ∧
      (Rows.iterate n r).2 = { r with current_row := r.current_row + n } := by
  induction n with
  | zero => intro r _; exact ⟨rfl, rfl⟩
  | succ n ih =>
      intro r h
      have hlt : r.current_row < r.row_count := by omega
      have hnext : r.next =
          ((some { result := r.inner, row_index := r.current_row,
                   column_count := r.column_count : Row}),
           { r with current_row := r.current_row + 1 }) := by
        unfold Rows.next
        rw [if_neg (by omega)]
      have ih1 := ih { r with current_row := r.current_row + 1 } (by simp; omega)
      unfold Rows.iterate
      rw [hnext]
      refine ⟨by simp [ih1.1], ?_⟩
      simp only [ih1.2]
      have : r.current_row + 1 + n = r.current_row + (n + 1) := by omega
      simp [this]

/-- C8: iterating a freshly constructed `Rows` yields exactly `row_count`
items; the final state carries the unchanged pointer token and counts with the
cursor at `row_count`; and any number of further `next` calls yields no items
and leaves the state — in particular the stored foreign result pointer —
untouched (`next` consults nothing but the counters). -/
theorem C8_rows_iteration (ptr rc cc k : Nat) :
    (Rows.iterate rc (Rows.new ptr rc cc)).1.length = rc ∧
    (Rows.iterate rc (Rows.new ptr rc cc)).2 =
      { inner := ptr, row_count := rc, column_count := cc, current_row := rc } ∧
    Rows.iterate k (Rows.iterate rc (Rows.new ptr rc cc)).2 =
      ([], (Rows.iterate rc (Rows.new ptr rc cc)).2) := by
  have h := Rows.iterate_length_state rc (Rows.new ptr rc cc) (by simp [Rows.new])
  have hstate : (Rows.iterate rc (Rows.new ptr rc cc)).2 =
      { inner := ptr, row_count := rc, column_count := cc, current_row := rc } := by
    rw [h.2]; simp [Rows.new]
  refine ⟨h.1, hstate, ?_⟩
  apply Rows.iterate_exhausted
  rw [hstate]

/-- The wrapping conversion agrees with "reduce modulo `2^32`, reinterpret as
signed". -/
lemma asI32_eq_specTruncI32 (v : Int) : asI32 v = specTruncI32 v := by
  unfold asI32 specTruncI32
  simp only []
  norm_num
  omega

/-- The wrapping conversion always lands in the `i32` range. -/
lemma specTruncI32_bounds (v : Int) :
    -(2 ^ 31) ≤ specTruncI32 v ∧ specTruncI32 v < 2 ^ 31 := by
  unfold specTruncI32
  norm_num
  omega

/-- C9: for an in-range column holding a 64-bit value outside the `i32` range,
`Row::get::<i32>` succeeds (no `TypeMismatch`) and returns the value reduced
modulo `2^32` and reinterpreted as signed — Rust's wrapping `as i32` — and the
`Option<i32>` extraction applies the same truncation to a non-null value; the
returned value necessarily differs from the stored one. -/
theorem C9_i32_wrapping_extraction (ptr rowIdx cc col : Nat)
    (getInt : Nat → Nat → Int) (isNull : Nat → Nat → Bool)
    (hcol : col < cc)
    (hrange : getInt rowIdx col < -(2 ^ 31) ∨ 2 ^ 31 ≤ getInt rowIdx col)
    (hnn : isNull rowIdx col = false) :
    (Row.mk ptr rowIdx cc).get_i32 getInt col =
      .ok (specTruncI32 (getInt rowIdx col)) ∧
    (Row.mk ptr rowIdx cc).get_optI32 isNull getInt col =
      .ok (some (specTruncI32 (getInt rowIdx col))) ∧
    specTruncI32 (getInt rowIdx col) ≠ getInt rowIdx col := by
  have hb := specTruncI32_bounds (getInt rowIdx col)
  refine ⟨?_, ?_, by omega⟩
  · unfold Row.get_i32
    rw [if_neg (by exact fun h => Nat.not_lt.mpr h hcol)]
    unfold i32_from_sql i64_from_sql
    simp [asI32_eq_specTruncI32]
  · unfold Row.get_optI32
    rw [if_neg (by exact fun h => Nat.not_lt.mpr h hcol)]
    unfold optI32_from_sql optI64_from_sql i64_from_sql
    simp [hnn, asI32_eq_specTruncI32]

/-- Witness for C9 at a concrete out-of-range value `2^31 + 5`. -/
theorem C9_i32_wrapping_extraction_witness :
    (Row.mk 0 0 1).get_i32 (fun _ _ => 2 ^ 31 + 5) 0 =
      .ok (specTruncI32 ((fun (_ _ : Nat) => (2 : Int) ^ 31 + 5) 0 0)) ∧
    (Row.mk 0 0 1).get_optI32 (fun _ _ => false) (fun _ _ => 2 ^ 31 + 5) 0 =
      .ok (some (specTruncI32 ((fun (_ _ : Nat) => (2 : Int) ^ 31 + 5) 0 0))) ∧
    specTruncI32 ((fun (_ _ : Nat) => (2 : Int) ^ 31 + 5) 0 0) ≠
      (fun (_ _ : Nat) => (2 : Int) ^ 31 + 5) 0 0 :=
  C9_i32_wrapping_extraction 0 0 1 0 (fun _ _ => 2 ^ 31 + 5) (fun _ _ => false)
    (by norm_num) (Or.inr (by norm_num)) rfl

namespace ConnectionPool

/-- If the drain loop found no healthy connection, the queue is fully drained. -/
lemma drainIdle_none_rest (config : PoolConfig) (now : Nat) (probeOk : Nat → Bool) :
    ∀ (l : List PooledConnection) (stats : PoolStats),
      (drainIdle config now probeOk l stats).1 = none →
      (drainIdle config now probeOk l stats).2.1 = [] := by
  intro l
  induction l with
  | nil => intro stats _; rfl
  | cons c rest ih =>
      intro stats h
      unfold drainIdle at h ⊢
      by_cases hc : (c.is_expired config now || !(c.is_valid config probeOk)) = true
      · rw [if_pos hc] at h ⊢
        exact ih _ h
      · rw [if_neg hc] at h
        simp at h

/-- If the drain loop hands out a connection, the remaining queue is strictly
shorter than the input queue. -/
lemma drainIdle_some_rest (config : PoolConfig) (now : Nat) (probeOk : Nat → Bool) :
    ∀ (l : List PooledConnection) (stats : PoolStats) (c : PooledConnection),
      (drainIdle config now probeOk l stats).1 = some c →
      (drainIdle config now probeOk l stats).2.1.length + 1 ≤ l.length := by
  intro l
  induction l with
  | nil => intro stats c h; simp [drainIdle] at h
  | cons d rest ih =>
      intro stats c h
      unfold drainIdle at h ⊢
      by_cases hc : (d.is_expired config now || !(d.is_valid config probeOk)) = true
      · rw [if_pos hc] at h ⊢
        have := ih _ c h
        simpa using Nat.le_succ_of_le this
      · rw [if_neg hc] at h ⊢
        simp

/-- One `get_connection` locked section preserves the capacity bound
`active_count + idle_queue.len() ≤ max_connections`. -/
lemma getConnectionBody_inv (now : Nat) (probeOk : Nat → Bool)
    (createConn : Except Error Nat) (s : PoolInner)
    (h : s.active_count + s.available.length ≤ s.config.max_connections) :
    (getConnectionBody now probeOk createConn s).2.active_count +
      (getConnectionBody now probeOk createConn s).2.available.length ≤
    s.config.max_connections := by
  unfold getConnectionBody
  rcases hdrain : drainIdle s.config now probeOk s.available s.stats with ⟨o, rest, stats⟩
  have hnone := drainIdle_none_rest s.config now probeOk s.available s.stats
  have hsome := drainIdle_some_rest s.config now probeOk s.available s.stats
  rw [hdrain] at hnone hsome
  cases o with
  | some c =>
      have h1 : rest.length + 1 ≤ s.available.length := hsome c rfl
      dsimp only
      omega
  | none =>
      have h0 : rest = [] := hnone rfl
      subst h0
      dsimp only
      split
      next hcap =>
        cases createConn with
        | ok conn =>
            dsimp only
            simp only [List.length_nil] at hcap ⊢
            omega
        | error e =>
            dsimp only
            simp only [List.length_nil]
            omega
      next hcap =>
        dsimp only
        simp only [List.length_nil]
        omega

/-- One `get_connection` locked section does not change the configuration. -/
lemma getConnectionBody_config (now : Nat) (probeOk : Nat → Bool)
    (createConn : Except Error Nat) (s : PoolInner) :
    (getConnectionBody now probeOk createConn s).2.config = s.config := by
  unfold getConnectionBody
  rcases drainIdle s.config now probeOk s.available s.stats with ⟨o, rest, stats⟩
  cases o with
  | some c => rfl
  | none =>
      dsimp only
      split
      · cases createConn with
        | ok conn => rfl
        | error e => rfl
      · rfl

/-- A guard drop preserves the capacity bound. -/
lemma guardDrop_inv (now conn : Nat) (s : PoolInner)
    (h : s.active_count + s.available.length ≤ s.config.max_connections) :
    (guardDrop now conn s).active_count + (guardDrop now conn s).available.length ≤
    s.config.max_connections := by
  unfold guardDrop
  dsimp only
  split
  next hkeep =>
      have hlt : s.available.length < s.config.max_connections := by
        simp only [Bool.and_eq_true, decide_eq_true_eq] at hkeep
        exact hkeep.1
      simp only [List.length_append, List.length_cons, List.length_nil]
      omega
  next hkeep =>
      dsimp only
      omega

/-- A guard drop does not change the configuration. -/
lemma guardDrop_config (now conn : Nat) (s : PoolInner) :
    (guardDrop now conn s).config = s.config := by
  unfold guardDrop
  dsimp only
  split <;> rfl

/-- The maintenance top-up loop leaves `active_count` and the configuration
alone and adds at most `n` connections to the queue. -/
lemma topUp_spec (now : Nat) :
    ∀ (n : Nat) (creations : List (Except Error Nat)) (s : PoolInner),
      (topUp now n creations s).active_count = s.active_count ∧
      (topUp now n creations s).available.length ≤ s.available.length + n ∧
      (topUp now n creations s).config = s.config := by
  intro n
  induction n with
  | zero => intro creations s; exact ⟨rfl, by simp [topUp], rfl⟩
  | succ m ih =>
      intro creations s
      cases creations with
      | nil => exact ⟨rfl, by simp [topUp], rfl⟩
      | cons c rest =>
          cases c with
          | error e =>
              have := ih rest s
              unfold topUp
              exact ⟨this.1, by omega, this.2.2⟩
          | ok conn =>
              unfold topUp
              refine ⟨(ih rest _).1, ?_, (ih rest _).2.2⟩
              have h2 := (ih rest
                { s with available := s.available ++ [PooledConnection.new conn now],
                         stats := { s.stats with
                           connections_created := s.stats.connections_created + 1,
                           idle_connections := s.stats.idle_connections + 1 } }).2.1
              simp only [List.length_append, List.length_cons, List.length_nil] at h2
              exact le_trans h2 (by omega)

/-- If the target bound absorbs both the current total and the number of
creation attempts, the top-up loop stays within it. -/
lemma topUp_total_le (now n : Nat) (creations : List (Except Error Nat)) (t : PoolInner)
    (bound : Nat) (h : t.active_count + t.available.length + n ≤ bound) :
    (topUp now n creations t).active_count +
      (topUp now n creations t).available.length ≤ bound := by
  obtain ⟨h1, h2, _⟩ := topUp_spec now n creations t
  omega

/-- `maintain` preserves the capacity bound, provided `min ≤ max`. -/
lemma maintain_inv (now : Nat) (creations : List (Except Error Nat)) (s : PoolInner)
    (hcfg : s.config.min_connections ≤ s.config.max_connections)
    (h : s.active_count + s.available.length ≤ s.config.max_connections) :
    (maintain now creations s).active_count +
      (maintain now creations s).available.length ≤
    s.config.max_connections := by
  unfold maintain
  have hkept : (s.available.filter (fun c => !(c.is_expired s.config now))).length ≤
      s.available.length := List.length_filter_le _ _
  dsimp only
  split
  next hlt =>
    apply topUp_total_le
    dsimp only
    omega
  next hge =>
    dsimp only
    omega

/-- `maintain` does not change the configuration. -/
lemma maintain_config (now : Nat) (creations : List (Except Error Nat)) (s : PoolInner) :
    (maintain now creations s).config = s.config := by
  unfold maintain
  dsimp only
  split
  · exact (topUp_spec now _ _ _).2.2
  · rfl

/-- `close` preserves the capacity bound and the configuration. -/
lemma close_inv (s : PoolInner)
    (h : s.active_count + s.available.length ≤ s.config.max_connections) :
    (close s).active_count + (close s).available.length ≤ s.config.max_connections := by
  unfold close
  dsimp only
  simp only [List.length_nil]
  omega

/-- A successful eager construction creates exactly `n` connections. -/
lemma createMany_length (now : Nat) :
    ∀ (n : Nat) (creations : List (Except Error Nat)) (conns : List PooledConnection),
      createMany now n creations = some conns → conns.length = n := by
  intro n
  induction n with
  | zero =>
      intro creations conns h
      simp [createMany] at h
      simp [← h]
  | succ m ih =>
      intro creations conns h
      cases creations with
      | nil => simp [createMany] at h
      | cons c rest =>
          cases c with
          | error e => simp [createMany] at h
          | ok conn =>
              unfold createMany at h
              rcases hm : createMany now m rest with _ | l
              · rw [hm] at h; simp at h
              · rw [hm] at h
                simp at h
                rw [← h]
                simp [ih rest l hm]

end ConnectionPool

/-- C1: for every reachable pool state — established by `ConnectionPool::new`
and preserved by every `get_connection` locked section, wait bookkeeping,
guard drop, `maintain` and `close` — the checked-out count plus the idle-queue
length stays within `max_connections` (for a well-formed configuration,
`min_connections ≤ max_connections`, as the spec's data model requires). -/
theorem C1_pool_capacity_invariant (s : PoolInner) (hreach : PoolReach s)
    (hcfg : s.config.min_connections ≤ s.config.max_connections) :
    s.active_count + s.available.length ≤ s.config.max_connections := by
  revert hcfg
  induction hreach with
  | init config path creations now s0 h =>
      intro hcfg
      unfold ConnectionPool.initPool at h
      rcases hm : ConnectionPool.createMany now config.min_connections creations with _ | conns <;>
        rw [hm] at h
      · simp at h
      · simp only [Option.map] at h
        have hlen := ConnectionPool.createMany_length now config.min_connections creations conns hm
        have hs0 := Option.some.inj h
        rw [← hs0] at hcfg ⊢
        dsimp only at hcfg ⊢
        omega
  | step s0 t hs hstep ih =>
      intro hcfg
      cases hstep with
      | get now probeOk createConn =>
          have hc := ConnectionPool.getConnectionBody_config now probeOk createConn s0
          rw [hc] at hcfg
          rw [hc]
          exact ConnectionPool.getConnectionBody_inv now probeOk createConn s0 (ih hcfg)
      | waitEnter =>
          exact ih hcfg
      | waitExit =>
          exact ih hcfg
      | drop now conn =>
          have hc := ConnectionPool.guardDrop_config now conn s0
          rw [hc] at hcfg
          rw [hc]
          exact ConnectionPool.guardDrop_inv now conn s0 (ih hcfg)
      | maint now creations =>
          have hc := ConnectionPool.maintain_config now creations s0
          rw [hc] at hcfg
          rw [hc]
          exact ConnectionPool.maintain_inv now creations s0 hcfg (ih hcfg)
      | close =>
          exact ConnectionPool.close_inv s0 (ih hcfg)

/-- A concrete reachable pool state used to witness C1: the state right after
`ConnectionPool::new` with `min = 1`, `max = 2`. -/
def c1WitnessState : PoolInner :=
  { config := { min_connections := 1, max_connections := 2, connection_timeout := 30,
                max_connection_lifetime := 3600, max_idle_time := 600, test_query := none },
    database_path := none,
    available := [PooledConnection.new 0 0],
    active_count := 0,
    stats := { connections_created := 1, connections_destroyed := 0,
               active_connections := 0, idle_connections := 1, waiting_requests := 0 },
    waiting := 0 }

/-- Witness for C1 at the concrete reachable state `c1WitnessState`. -/
theorem C1_pool_capacity_invariant_witness :
    c1WitnessState.active_count + c1WitnessState.available.length ≤
      c1WitnessState.config.max_connections :=
  C1_pool_capacity_invariant c1WitnessState
    (PoolReach.init
      { min_connections := 1, max_connections := 2, connection_timeout := 30,
        max_connection_lifetime := 3600, max_idle_time := 600, test_query := none }
      none [.ok 0] 0 c1WitnessState (by decide))
    (by decide)

/-- Configuration for the lifetime-reset scenario: `max_connection_lifetime`
of 10 ticks, generous idle allowance, no validation query. -/
def c2Config : PoolConfig :=
  { min_connections := 1, max_connections := 10, connection_timeout := 30,
    max_connection_lifetime := 10, max_idle_time := 100, test_query := none }

/-- The pool state right after `ConnectionPool::new` with `c2Config`:
one idle connection (id 0) created at tick 0. -/
def c2Init : PoolInner :=
  { config := c2Config, database_path := none,
    available := [PooledConnection.new 0 0],
    active_count := 0,
    stats := { connections_created := 1, connections_destroyed := 0,
               active_connections := 0, idle_connections := 1, waiting_requests := 0 },
    waiting := 0 }

/-- State after checking connection 0 out at tick 1. -/
def c2AfterGet : PoolInner :=
  (ConnectionPool.getConnectionBody 1 (fun _ => true) (.error .ConnectionFailed) c2Init).2

/-- State after the guard is dropped at tick 5. -/
def c2AfterDrop : PoolInner :=
  ConnectionPool.guardDrop 5 0 c2AfterGet

/-- C2 shows a code bug: the guard holds the bare `Connection`, so the drop
rewraps it with `PooledConnection::new`, resetting `created_at` to the drop
instant.  Concretely: connection 0 is created at tick 0 under a lifetime limit
of 10; it is checked out at tick 1 and returned at tick 5 (its stored
`created_at` becoming 5); at tick 12 — 12 ticks after its original creation,
past the lifetime limit — checkout hands it out again instead of retiring it,
whereas `is_expired` on a wrapper that had kept `created_at = 0` would have
retired it. -/
theorem C2_lifetime_clock_reset :
    ConnectionPool.initPool c2Config none [.ok 0] 0 = some c2Init ∧
    (ConnectionPool.getConnectionBody 1 (fun _ => true)
        (.error .ConnectionFailed) c2Init).1 = .acquired 0 ∧
    c2AfterDrop.available =
      [{ connection := 0, created_at := 5, last_used := 5 }] ∧
    (ConnectionPool.getConnectionBody 12 (fun _ => true)
        (.error .ConnectionFailed) c2AfterDrop).1 = .acquired 0 ∧
    12 - 0 > c2Config.max_connection_lifetime ∧
    PooledConnection.is_expired
      { connection := 0, created_at := 0, last_used := 5 } c2Config 12 = true := by
  decide

/-- C3 shows a code bug in `Transaction::rollback`: it never sets `committed`,
so the drop of the consumed `self` fires the auto-rollback a second time — the
rollback primitive is invoked twice over the transaction's lifetime (likewise a
failed `commit` is followed by a drop-rollback).  Only the successful-commit
and abandoned-drop lifetimes invoke exactly one primitive, as the claim
demands for all paths. -/
theorem C3_transaction_primitive_traces :
    txLifetimeRollback true = [.rollbackPrim, .rollbackPrim] ∧
    txLifetimeRollback false = [.rollbackPrim, .rollbackPrim] ∧
    txLifetimeCommit true = [.commitPrim] ∧
    txLifetimeCommit false = [.commitPrim, .rollbackPrim] ∧
    txLifetimeAbandoned = [.rollbackPrim] ∧
    (txLifetimeRollback true).length ≠ 1 := by
  decide

/-- C4 shows a code bug (the source marks the async transaction bodies as
unimplemented): `AsyncTransaction::new` drops the real transaction — firing its
auto-rollback immediately — and stores no connection; `execute` runs no SQL and
returns `Ok(())`; `commit` invokes no commit primitive; `query` always returns
`Err(TransactionError)`.  So no statement of an async transaction ever reaches
a connection and no write can become visible, contradicting the claimed
execute/commit/query contract. -/
theorem C4_async_transaction_stub (sql : String) :
    (AsyncTransaction.new Transaction.new).1 = [TxPrim.rollbackPrim] ∧
    (AsyncTransaction.new Transaction.new).2 =
      { connection_pool := none, committed := false } ∧
    AsyncTransaction.execute { connection_pool := none, committed := false } sql = .ok () ∧
    (AsyncTransaction.commit { connection_pool := none, committed := false }).1 = [] ∧
    AsyncTransaction.query { connection_pool := none, committed := false } sql =
      .error .TransactionError :=
  ⟨rfl, rfl, rfl, rfl, rfl⟩

/-- C10: `close` clears the idle queue, adds the idle gauge to the destroyed
counter and zeroes the gauge — and changes nothing else: `active_count`, the
created counter, the active/waiting gauges, the configuration, the database
path and the waiter count are untouched, and no closed flag exists, so a
subsequent `get_connection` locked section follows the ordinary algorithm on
the emptied queue — in particular, with spare capacity it creates and hands
out a new connection. -/
theorem C10_close_frame (s : PoolInner) :
    ((ConnectionPool.close s).available = [] ∧
     (ConnectionPool.close s).stats.idle_connections = 0 ∧
     (ConnectionPool.close s).stats.connections_destroyed =
       s.stats.connections_destroyed + s.stats.idle_connections ∧
     (ConnectionPool.close s).active_count = s.active_count ∧
     (ConnectionPool.close s).stats.connections_created =
       s.stats.connections_created ∧
     (ConnectionPool.close s).stats.active_connections =
       s.stats.active_connections ∧
     (ConnectionPool.close s).stats.waiting_requests = s.stats.waiting_requests ∧
     (ConnectionPool.close s).config = s.config ∧
     (ConnectionPool.close s).database_path = s.database_path ∧
     (ConnectionPool.close s).waiting = s.waiting) ∧
    (∀ (now : Nat) (probeOk : Nat → Bool) (conn : Nat),
      s.active_count < s.config.max_connections →
      (ConnectionPool.getConnectionBody now probeOk (.ok conn)
        (ConnectionPool.close s)).1 = .acquired conn) := by
  refine ⟨⟨rfl, rfl, rfl, rfl, rfl, rfl, rfl, rfl, rfl, rfl⟩, ?_⟩
  intro now probeOk conn hcap
  have ht : ConnectionPool.close s =
      { config := s.config, database_path := s.database_path, available := [],
        active_count := s.active_count,
        stats := { connections_created := s.stats.connections_created,
                   connections_destroyed :=
                     s.stats.connections_destroyed + s.stats.idle_connections,
                   active_connections := s.stats.active_connections,
                   idle_connections := 0,
                   waiting_requests := s.stats.waiting_requests },
        waiting := s.waiting } := rfl
  rw [ht]
  unfold ConnectionPool.getConnectionBody ConnectionPool.drainIdle
  dsimp only
  split
  · rfl
  next h => exact absurd (by simpa using hcap) h

/-- Witness for C10: after closing a one-idle-connection pool with capacity 2
and no checkouts, `get_connection` creates and hands out a new connection. -/
theorem C10_close_frame_witness :
    (ConnectionPool.getConnectionBody 0 (fun _ => true) (.ok 7)
      (ConnectionPool.close
        { config := { min_connections := 1, max_connections := 2,
                      connection_timeout := 30, max_connection_lifetime := 3600,
                      max_idle_time := 600, test_query := none },
          database_path := none,
          available := [PooledConnection.new 0 0],
          active_count := 0,
          stats := { connections_created := 1, connections_destroyed := 0,
                     active_connections := 0, idle_connections := 1,
                     waiting_requests := 0 },
          waiting := 0 })).1 = .acquired 7 :=
  (C10_close_frame
    { config := { min_connections := 1, max_connections := 2,
                  connection_timeout := 30, max_connection_lifetime := 3600,
                  max_idle_time := 600, test_query := none },
      database_path := none,
      available := [PooledConnection.new 0 0],
      active_count := 0,
      stats := { connections_created := 1, connections_destroyed := 0,
                 active_connections := 0, idle_connections := 1,
                 waiting_requests := 0 },
      waiting := 0 }).2 0 (fun _ => true) 7 (by decide)

/-- Configuration for the C6 counterexample: `min = 1`, `max = 10`, no
validation query, generous expiry limits. -/
def c6Config : PoolConfig :=
  { min_connections := 1, max_connections := 10, connection_timeout := 30,
    max_connection_lifetime := 3600, max_idle_time := 600, test_query := none }

/-- Pool state right after `ConnectionPool::new` under `c6Config`. -/
def c6Init : PoolInner :=
  { config := c6Config, database_path := none,
    available := [PooledConnection.new 0 0],
    active_count := 0,
    stats := { connections_created := 1, connections_destroyed := 0,
               active_connections := 0, idle_connections := 1, waiting_requests := 0 },
    waiting := 0 }

/-- The same pool after `close`. -/
def c6Closed : PoolInner := ConnectionPool.close c6Init

/-- Counterexample to C6 as stated: in the reachable state after `close`, the
hypotheses of the claim hold — the handle the checkout hands out is freshly
created (so neither expired nor invalid) and active plus idle is 0, well
within `max_connections` — yet `get_connection` followed immediately by the
guard drop raises the idle gauge from 0 to 1 and increments
`connections_created`, because the checkout takes the freshly-created branch.
(`.ok 1` supplies the id of the connection `create_connection` returns.) -/
theorem C6_roundtrip_counterexample :
    ConnectionPool.initPool c6Config none [.ok 0] 0 = some c6Init ∧
    c6Closed.active_count + c6Closed.available.length ≤ c6Config.max_connections ∧
    (ConnectionPool.getConnectionBody 1 (fun _ => true) (.ok 1) c6Closed).1 =
      .acquired 1 ∧
    c6Closed.stats.idle_connections = 0 ∧
    (ConnectionPool.guardDrop 1 1
      (ConnectionPool.getConnectionBody 1 (fun _ => true) (.ok 1) c6Closed).2).stats.idle_connections = 1 ∧
    c6Closed.stats.connections_created = 1 ∧
    (ConnectionPool.guardDrop 1 1
      (ConnectionPool.getConnectionBody 1 (fun _ => true) (.ok 1) c6Closed).2).stats.connections_created = 2 := by
  decide

/-- C6 (amended): when the checkout is served from the idle queue — the queue
is nonempty, its front connection is neither expired nor invalid — and
`active + idle` lies between `min_connections` and `max_connections` with the
idle gauge in sync with the queue length, then `get_connection` immediately
followed by the guard drop restores `idle_connections` to its prior value and
leaves `connections_created` and `connections_destroyed` unchanged. -/
theorem C6_checkout_return_roundtrip (s : PoolInner) (c : PooledConnection)
    (rest : List PooledConnection) (now now2 conn : Nat) (probeOk : Nat → Bool)
    (createConn : Except Error Nat)
    (hq : s.available = c :: rest)
    (hexp : c.is_expired s.config now = false)
    (hval : c.is_valid s.config probeOk = true)
    (hmin : s.config.min_connections ≤ s.active_count + s.available.length)
    (hmax : s.active_count + s.available.length ≤ s.config.max_connections)
    (hsync : s.stats.idle_connections = s.available.length) :
    (ConnectionPool.guardDrop now2 conn
      (ConnectionPool.getConnectionBody now probeOk createConn s).2).stats.idle_connections = s.stats.idle_connections ∧
    (ConnectionPool.guardDrop now2 conn
      (ConnectionPool.getConnectionBody now probeOk createConn s).2).stats.connections_created = s.stats.connections_created ∧
    (ConnectionPool.guardDrop now2 conn
      (ConnectionPool.getConnectionBody now probeOk createConn s).2).stats.connections_destroyed = s.stats.connections_destroyed := by
  have hlen : s.available.length = rest.length + 1 := by rw [hq]; rfl
  have hdrain : ConnectionPool.drainIdle s.config now probeOk s.available s.stats =
      (some c, rest,
        { s.stats with idle_connections := s.stats.idle_connections - 1 }) := by
    rw [hq]
    unfold ConnectionPool.drainIdle
    rw [if_neg (by simp [hexp, hval])]
  have hbody : ConnectionPool.getConnectionBody now probeOk createConn s =
      (.acquired (c.touch now).connection,
       { s with available := rest,
                active_count := s.active_count + 1,
                stats := { s.stats with
                  idle_connections := s.stats.idle_connections - 1,
                  active_connections := s.stats.active_connections + 1 } }) := by
    unfold ConnectionPool.getConnectionBody
    rw [hdrain]
  rw [hbody]
  unfold ConnectionPool.guardDrop
  dsimp only
  rw [if_pos (by
    simp only [Bool.and_eq_true, decide_eq_true_eq]
    constructor
    · omega
    · omega)]
  dsimp only
  refine ⟨by omega, rfl, rfl⟩

/-- Witness for C6 (amended) at a concrete one-idle-connection pool. -/
theorem C6_checkout_return_roundtrip_witness :
    (ConnectionPool.guardDrop 0 0
      (ConnectionPool.getConnectionBody 0 (fun _ => true) (.error .Unknown) c1WitnessState).2).stats.idle_connections = c1WitnessState.stats.idle_connections ∧
    (ConnectionPool.guardDrop 0 0
      (ConnectionPool.getConnectionBody 0 (fun _ => true) (.error .Unknown) c1WitnessState).2).stats.connections_created = c1WitnessState.stats.connections_created ∧
    (ConnectionPool.guardDrop 0 0
      (ConnectionPool.getConnectionBody 0 (fun _ => true) (.error .Unknown) c1WitnessState).2).stats.connections_destroyed = c1WitnessState.stats.connections_destroyed :=
  C6_checkout_return_roundtrip c1WitnessState (PooledConnection.new 0 0) [] 0 0 0
    (fun _ => true) (.error .Unknown) rfl (by decide) (by decide) (by decide) (by decide)
    (by decide)

/-- On an exhausted pool (empty queue, no spare capacity) the locked section
of `get_connection` reports exhaustion and leaves the state unchanged. -/
lemma ConnectionPool.getConnectionBody_exhausted (now : Nat) (probeOk : Nat → Bool)
    (createConn : Except Error Nat) (s : PoolInner) (h : Exhausted s) :
    ConnectionPool.getConnectionBody now probeOk createConn s = (.exhausted, s) := by
  obtain ⟨h1, h2⟩ := h
  unfold ConnectionPool.getConnectionBody
  rw [h1]
  unfold ConnectionPool.drainIdle
  dsimp only
  rw [if_neg (by simp only [List.length_nil, Nat.add_zero]; omega)]
  rw [← h1]

/-- C5 (amended): on a pool that stays exhausted at every lock acquisition —
active plus idle pinned at capacity — `get_connection` never hands out a
connection and never returns a creation error: every error return is the
`PoolError "Connection timeout"` produced when the deadline is observed to
have passed (at the pre-wait check or by `wait_timeout`).  However, the call
is not panic-free: it panics exactly in an iteration that saw the deadline
still open at the check of line 231 but already past at the fresh
`start.elapsed()` reading inside `timeout - start.elapsed()` of line 239,
where the `Duration` subtraction underflows. -/
theorem C5_timeout_behaviour (timeout : Nat) (sched : List WaitIter) (s : PoolInner)
    (hs : Exhausted s) (hw : ∀ it ∈ sched, Exhausted it.wakeState) :
    (∀ e s1, get_connection_run timeout sched s = .err e s1 →
        e = Error.pool_error "Connection timeout") ∧
    (∀ c s1, get_connection_run timeout sched s ≠ .ok c s1) ∧
    (get_connection_run timeout sched s = .panicked →
        ∃ it ∈ sched, it.elapsedAtCheck < timeout ∧ timeout < it.elapsedAtWait) := by
  induction sched generalizing s with
  | nil =>
      refine ⟨?_, ?_, ?_⟩
      · intro e s1 he
        exact absurd he (by unfold get_connection_run; intro h; cases h)
      · intro c s1 he
        exact absurd he (by unfold get_connection_run; intro h; cases h)
      · intro he
        exact absurd he (by unfold get_connection_run; intro h; cases h)
  | cons it rest ih =>
      have hbody :=
        ConnectionPool.getConnectionBody_exhausted it.now it.probeOk it.createConn s hs
      have hwake : Exhausted it.wakeState := hw it (List.mem_cons_self it rest)
      have hwrest : ∀ i ∈ rest, Exhausted i.wakeState :=
        fun i hi => hw i (List.mem_cons_of_mem it hi)
      unfold get_connection_run
      rw [hbody]
      dsimp only
      by_cases h1 : it.elapsedAtCheck ≥ timeout
      · rw [if_pos h1]
        refine ⟨?_, ?_, ?_⟩
        · intro e s1 he
          injection he with he1 he2
          exact he1.symm
        · intro c s1 he
          cases he
        · intro he
          cases he
      · rw [if_neg h1]
        by_cases h2 : timeout < it.elapsedAtWait
        · rw [if_pos h2]
          refine ⟨?_, ?_, ?_⟩
          · intro e s1 he
            cases he
          · intro c s1 he
            cases he
          · intro _
            exact ⟨it, List.mem_cons_self it rest, by omega, h2⟩
        · rw [if_neg h2]
          by_cases h3 : it.timedOut = true
          · rw [if_pos h3]
            refine ⟨?_, ?_, ?_⟩
            · intro e s1 he
              injection he with he1 he2
              exact he1.symm
            · intro c s1 he
              cases he
            · intro he
              cases he
          · rw [if_neg h3]
            have hwakeExh : Exhausted
                { it.wakeState with waiting := it.wakeState.waiting - 1 } :=
              ⟨hwake.1, hwake.2⟩
            obtain ⟨ihErr, ihOk, ihPanic⟩ :=
              ih { it.wakeState with waiting := it.wakeState.waiting - 1 } hwakeExh hwrest
            refine ⟨ihErr, ihOk, ?_⟩
            intro he
            obtain ⟨i, hi, hia, hib⟩ := ihPanic he
            exact ⟨i, List.mem_cons_of_mem it hi, hia, hib⟩

/-- Configuration for the C5 scenario: capacity 1, checkout timeout 10. -/
def c5Config : PoolConfig :=
  { min_connections := 1, max_connections := 1, connection_timeout := 10,
    max_connection_lifetime := 3600, max_idle_time := 600, test_query := none }

/-- Pool state right after `ConnectionPool::new` under `c5Config`. -/
def c5Init : PoolInner :=
  { config := c5Config, database_path := none,
    available := [PooledConnection.new 0 0],
    active_count := 0,
    stats := { connections_created := 1, connections_destroyed := 0,
               active_connections := 0, idle_connections := 1, waiting_requests := 0 },
    waiting := 0 }

/-- The pool after its single connection is checked out: exhausted. -/
def c5Full : PoolInner :=
  (ConnectionPool.getConnectionBody 0 (fun _ => true) (.error .ConnectionFailed) c5Init).2

/-- A loop iteration in which the deadline (10) is still open at the timeout
check (elapsed 5) but has passed by the wait computation (elapsed 15). -/
def c5PanicIter : WaitIter :=
  { now := 1, probeOk := fun _ => true, createConn := .error .ConnectionFailed,
    elapsedAtCheck := 5, elapsedAtWait := 15, wakeState := c5Full, timedOut := false }

/-- Counterexample to C5 as stated: with the pool at capacity (1 active, 0
idle, `max = 1`, reachable from `new` plus one checkout), a further
`get_connection` whose deadline passes between the timeout check and the
remaining-wait computation panics — `timeout - start.elapsed()` underflows —
rather than returning the timeout error. -/
theorem C5_get_connection_panics :
    ConnectionPool.initPool c5Config none [.ok 0] 0 = some c5Init ∧
    (ConnectionPool.getConnectionBody 0 (fun _ => true)
        (.error .ConnectionFailed) c5Init).1 = .acquired 0 ∧
    c5Full.active_count + c5Full.available.length = c5Config.max_connections ∧
    get_connection_run 10 [c5PanicIter] c5Full = .panicked := by
  decide

/-- A loop iteration whose `wait_timeout` reports a timeout within the
deadline. -/
def c5TimeoutIter : WaitIter :=
  { now := 1, probeOk := fun _ => true, createConn := .error .ConnectionFailed,
    elapsedAtCheck := 5, elapsedAtWait := 7, wakeState := c5Full, timedOut := true }

/-- Witness for C5 (amended) on the concrete exhausted pool with a timing-out
wait. -/
theorem C5_timeout_behaviour_witness :
    (∀ e s1, get_connection_run 10 [c5TimeoutIter] c5Full = .err e s1 →
        e = Error.pool_error "Connection timeout") ∧
    (∀ c s1, get_connection_run 10 [c5TimeoutIter] c5Full ≠ .ok c s1) ∧
    (get_connection_run 10 [c5TimeoutIter] c5Full = .panicked →
        ∃ it ∈ [c5TimeoutIter], it.elapsedAtCheck < 10 ∧ 10 < it.elapsedAtWait) :=
  C5_timeout_behaviour 10 [c5TimeoutIter] c5Full ⟨rfl, by decide⟩
    (by
      intro it hit
      simp only [List.mem_singleton] at hit
      subst hit
      exact ⟨rfl, by decide⟩)
